import Mathlib

/-
Verification of the chemfiles selection-language parser
(src/selections/parser.cpp): short-form rewriting, the shunting-yard
reducer, and the RPN dispatcher, embedded shallowly as executable Lean
functions. The Token class, its precedence table and the per-expression
`parse<T>` constructors live in headers and in expr.cpp, which are not
among the excerpted sources; those parts are modelled from the
specification and carry a doc comment saying so.
-/

set_option maxHeartbeats 1000000

namespace Chemfiles

/-- Comparison operators stored in AST nodes: ==, !=, <, <=, >, >=. -/
inductive CmpOp
  | eq
  | neq
  | lt
  | le
  | gt
  | ge
  deriving DecidableEq, Repr

/-- Coordinate axis selector for position and velocity nodes. -/
inductive Axis
  | X
  | Y
  | Z
  deriving DecidableEq, Repr

/-- AST node of the selection language, one variant per evaluable
predicate or combinator, with the same names as the C++ expression
classes. Numeric literals are modelled as integers. -/
inductive Ast
  | AllExpr
  | NoneExpr
  | NameExpr (op : CmpOp) (value : String)
  | IndexExpr (op : CmpOp) (value : Int)
  | MassExpr (op : CmpOp) (value : Int)
  | PositionExpr (axis : Axis) (op : CmpOp) (value : Int)
  | VelocityExpr (axis : Axis) (op : CmpOp) (value : Int)
  | AndExpr (lhs rhs : Ast)
  | OrExpr (lhs rhs : Ast)
  | NotExpr (operand : Ast)
  deriving DecidableEq, Repr

/-- Modelled from the spec: the Token class is declared in
chemfiles/selections/parser.hpp, which is not among the excerpted
sources. Section 3 of the specification lists the kind tags and
payloads; numeric literals are modelled as integers. -/
inductive Token
  | NUMBER (value : Int)
  | IDENT (s : String)
  | VARIABLE (n : Nat)
  | EQ
  | NEQ
  | LT
  | LE
  | GT
  | GE
  | AND
  | OR
  | NOT
  | LPAREN
  | RPAREN
  | COMMA
  deriving DecidableEq, Repr

/-- Modelled from the spec: token predicate is_number. -/
def Token.is_number : Token → Bool
  | .NUMBER _ => true
  | _ => false

/-- Modelled from the spec: token predicate is_variable. -/
def Token.is_variable : Token → Bool
  | .VARIABLE _ => true
  | _ => false

/-- Modelled from the spec: token predicate is_ident. -/
def Token.is_ident : Token → Bool
  | .IDENT _ => true
  | _ => false

/-- Modelled from the spec: string payload of an identifier token. The
C++ accessor asserts that the token is an identifier; the model returns
the empty string on every other kind. -/
def Token.ident : Token → String
  | .IDENT s => s
  | _ => ""

/-- Modelled from the spec: is_boolean_op holds for the boolean
operators and, or, not. -/
def Token.is_boolean_op : Token → Bool
  | .AND => true
  | .OR => true
  | .NOT => true
  | _ => false

/-- Modelled from the spec: is_binary_op holds for the six comparison
operators only. -/
def Token.is_binary_op : Token → Bool
  | .EQ => true
  | .NEQ => true
  | .LT => true
  | .LE => true
  | .GT => true
  | .GE => true
  | _ => false

/-- Modelled from the spec: is_operator holds for comparison or boolean
operators. -/
def Token.is_operator (t : Token) : Bool :=
  t.is_binary_op || t.is_boolean_op

/-- Modelled from the spec: the numeric precedence table. The spec fixes
the relative order (not binds tighter than and, which binds tighter than
or, and comparison operators bind tighter than all boolean operators).
Identifier tokens must rank at least as high as comparison operators:
the dispatcher in parser.cpp requires the RPN layout operator, value,
identifier, which only arises when an incoming comparison operator pops
a function identifier off the stack, and the spec test cases (short-form
equivalence, precedence) depend on it. Parentheses rank below every
operator. -/
def Token.precedence : Token → Nat
  | .IDENT _ => 40
  | .EQ => 30
  | .NEQ => 30
  | .LT => 30
  | .LE => 30
  | .GT => 30
  | .GE => 30
  | .NOT => 20
  | .AND => 15
  | .OR => 10
  | _ => 0

/-- Modelled from the spec: the textual rendering of a token, used by
the dispatcher in the message bad binary operation around <token>. The
lexer holding the concrete spellings is not among the excerpted
sources. -/
def Token.str : Token → String
  | .NUMBER v => toString v
  | .IDENT s => s
  | .VARIABLE n => "#" ++ toString n
  | .EQ => "=="
  | .NEQ => "!="
  | .LT => "<"
  | .LE => "<="
  | .GT => ">"
  | .GE => ">="
  | .AND => "and"
  | .OR => "or"
  | .NOT => "not"
  | .LPAREN => "("
  | .RPAREN => ")"
  | .COMMA => ","

/-- The static function table of parser.cpp: property name paired with
its arity (always 1 today). -/
def FUNCTIONS : List (String × Nat) :=
  [("name", 1), ("mass", 1), ("index", 1),
   ("x", 1), ("y", 1), ("z", 1),
   ("vx", 1), ("vy", 1), ("vz", 1)]

/-- Is this token a function token? (parser.cpp, is_function) -/
def is_function (token : Token) : Bool :=
  token.is_ident && FUNCTIONS.any (fun f => f.1 == token.ident)

/-- Errors of the embedded parser. selectionError models a thrown
SelectionError; undefinedBehavior marks a point where the C++ calls
operators.top() on an empty std::stack or dereferences the begin
iterator of an empty range; outOfFuel is an artefact of the fuelled
recursion of the dispatcher and corresponds to nothing in the source. -/
inductive ParseError
  | selectionError (msg : String)
  | undefinedBehavior
  | outOfFuel
  deriving DecidableEq, Repr

/-- Short-form test of parser.cpp (have_short_form). -/
def have_short_form (expr : String) : Bool :=
  expr == "name" || expr == "index" || expr == "mass"

/-- Loop body of clean_token_stream (parser.cpp lines 140 to 150): the
iterator walks the input stream, looking one token ahead in the
original stream. -/
def clean_go : List Token → List Token
  | [] => []
  | t :: rest =>
    if t.is_ident && have_short_form t.ident then
      match rest with
      | next :: _ =>
        if !next.is_operator then
          t :: Token.EQ :: clean_go rest
        else
          t :: clean_go rest
      | [] => t :: clean_go rest
    else
      t :: clean_go rest

/-- clean_token_stream of parser.cpp: rewrite short forms such as
name foo into name == foo. -/
def clean_token_stream (stream : List Token) : List Token :=
  clean_go stream

/-- Follows the words of the specification (section 4.2 and claim C3):
every short-form identifier not immediately followed by an operator
token becomes identifier, EQ, then the original next token; every other
token is copied unchanged; a short-form identifier that is the last
token of the stream is left unrewritten. Stated separately from the
source translation clean_token_stream so the two can be compared. -/
def clean_spec_rewrite : List Token → List Token
  | [] => []
  | [t] => [t]
  | t :: next :: rest =>
    if t.is_ident && have_short_form t.ident && !next.is_operator then
      t :: Token.EQ :: clean_spec_rewrite (next :: rest)
    else
      t :: clean_spec_rewrite (next :: rest)

/-- State of the shunting-yard loop: the operator stack (head is the
top) and the output vector (in emission order). -/
structure SYState where
  operators : List Token
  output : List Token
  deriving DecidableEq, Repr

/-- Comma handling of shunting_yard (parser.cpp lines 69 to 78): pop
operators to the output until an open parenthesis is at the top. The
C++ reads operators.top() before any emptiness check, so a comma
arriving on an empty stack is undefined behavior; a stack exhausted
after at least one pop throws a SelectionError. -/
def comma_loop : List Token → List Token → Except ParseError SYState
  | [], _ => .error .undefinedBehavior
  | top :: rest, output =>
    if top = Token.LPAREN then
      .ok ⟨top :: rest, output⟩
    else
      match rest with
      | [] => .error (.selectionError "Mismatched paretheses or additional comma found")
      | r :: rs => comma_loop (r :: rs) (output ++ [top])

/-- Operator handling of shunting_yard (parser.cpp lines 80 to 88): pop
every stack top whose precedence is at least the precedence of the
incoming token. -/
def operator_loop : List Token → List Token → Token → List Token × List Token
  | [], output, _ => ([], output)
  | top :: rest, output, t =>
    if t.precedence ≤ top.precedence then
      operator_loop rest (output ++ [top]) t
    else
      (top :: rest, output)

/-- Operator handling of shunting_yard, including the final push of the
incoming operator (parser.cpp line 89). -/
def operator_push (ops output : List Token) (t : Token) : SYState :=
  let r := operator_loop ops output t
  ⟨t :: r.1, r.2⟩

/-- First half of the close-parenthesis handling (parser.cpp lines 93
to 97): pop to the output while the stack is nonempty and its top is
not an open parenthesis. -/
def rparen_drain : List Token → List Token → List Token × List Token
  | [], output => ([], output)
  | top :: rest, output =>
    if top = Token.LPAREN then
      (top :: rest, output)
    else
      rparen_drain rest (output ++ [top])

/-- Close-parenthesis handling of shunting_yard (parser.cpp lines 92 to
108). After the drain the C++ calls is_function(operators.top()) before
the open parenthesis has been removed, which is undefined behavior when
the stack is empty, and tests the open parenthesis itself for
functionness otherwise; then the top must be the open parenthesis, which
is discarded. -/
def rparen_step (ops output : List Token) : Except ParseError SYState :=
  match rparen_drain ops output with
  | ([], _) => .error .undefinedBehavior
  | (top :: rest, output2) =>
    let r := if is_function top then (rest, output2 ++ [top]) else (top :: rest, output2)
    match r.1 with
    | [] => .error (.selectionError "Mismatched parentheses")
    | top2 :: rest2 =>
      if top2 = Token.LPAREN then
        .ok ⟨rest2, r.2⟩
      else
        .error (.selectionError "Mismatched parentheses")

/-- One iteration of the shunting_yard while loop (parser.cpp lines 60
to 110), dispatching on the kind of the current token in the same order
as the C++ if chain. The final else is unreachable because the if chain
covers every token kind; it mirrors the C++ falling through to the
iterator increment. -/
def sy_step (st : SYState) (t : Token) : Except ParseError SYState :=
  if t.is_number || t.is_variable then
    .ok ⟨st.operators, st.output ++ [t]⟩
  else if t.is_ident then
    if is_function t then
      .ok ⟨t :: st.operators, st.output⟩
    else
      .ok ⟨st.operators, st.output ++ [t]⟩
  else if t = Token.COMMA then
    comma_loop st.operators st.output
  else if t.is_operator then
    .ok (operator_push st.operators st.output t)
  else if t = Token.LPAREN then
    .ok ⟨t :: st.operators, st.output⟩
  else if t = Token.RPAREN then
    rparen_step st.operators st.output
  else
    .ok st

/-- The shunting_yard while loop over the whole token sequence. -/
def sy_run (st : SYState) : List Token → Except ParseError SYState
  | [] => .ok st
  | t :: ts =>
    match sy_step st t with
    | .error e => .error e
    | .ok st2 => sy_run st2 ts

/-- End-of-input popping of shunting_yard (parser.cpp lines 112 to 120):
remaining operators go to the output; a parenthesis still on the stack
is a SelectionError. -/
def sy_pop_remaining : List Token → List Token → Except ParseError (List Token)
  | [], output => .ok output
  | top :: rest, output =>
    if top = Token.LPAREN ∨ top = Token.RPAREN then
      .error (.selectionError "Mismatched parentheses")
    else
      sy_pop_remaining rest (output ++ [top])

/-- shunting_yard of parser.cpp: run the loop from the empty state, pop
the remaining operators, and reverse the output once. -/
def shunting_yard (tokens : List Token) : Except ParseError (List Token) :=
  match sy_run ⟨[], []⟩ tokens with
  | .error e => .error e
  | .ok st =>
    match sy_pop_remaining st.operators st.output with
    | .error e => .error e
    | .ok output => .ok output.reverse

/-- Map a comparison token to the stored operator. -/
def cmp_of : Token → Option CmpOp
  | .EQ => some .eq
  | .NEQ => some .neq
  | .LT => some .lt
  | .LE => some .le
  | .GT => some .gt
  | .GE => some .ge
  | _ => none

/-- Axis named by a position property identifier. -/
def axis_of : String → Option Axis
  | "x" => some .X
  | "y" => some .Y
  | "z" => some .Z
  | _ => none

/-- Axis named by a velocity property identifier. -/
def vaxis_of : String → Option Axis
  | "vx" => some .X
  | "vy" => some .Y
  | "vz" => some .Z
  | _ => none

/-- Modelled from the spec: parse<NameExpr> lives in expr.cpp, which is
not among the excerpted sources. Per sections 3, 4.4 and 4.5 it consumes
the three tokens operator, value, identifier; the value of the name
property is a string literal and only == and != are allowed, an ordering
operator being a construction-time SelectionError. -/
def parseName : List Token → Except ParseError (Ast × List Token)
  | op :: Token.IDENT value :: Token.IDENT _ :: rest =>
    if op = Token.EQ then
      .ok (Ast.NameExpr CmpOp.eq value, rest)
    else if op = Token.NEQ then
      .ok (Ast.NameExpr CmpOp.neq value, rest)
    else
      .error (.selectionError "Name selection can only be used with equality operators")
  | _ => .error (.selectionError "Could not parse a name selection")

/-- Modelled from the spec: parse<IndexExpr> of expr.cpp, consuming
operator, numeric value, identifier; all six comparison operators are
allowed. -/
def parseIndex : List Token → Except ParseError (Ast × List Token)
  | op :: Token.NUMBER v :: Token.IDENT _ :: rest =>
    match cmp_of op with
    | some c => .ok (Ast.IndexExpr c v, rest)
    | none => .error (.selectionError "Could not parse an index selection")
  | _ => .error (.selectionError "Could not parse an index selection")

/-- Modelled from the spec: parse<MassExpr> of expr.cpp, consuming
operator, numeric value, identifier; all six comparison operators are
allowed. -/
def parseMass : List Token → Except ParseError (Ast × List Token)
  | op :: Token.NUMBER v :: Token.IDENT _ :: rest =>
    match cmp_of op with
    | some c => .ok (Ast.MassExpr c v, rest)
    | none => .error (.selectionError "Could not parse a mass selection")
  | _ => .error (.selectionError "Could not parse a mass selection")

/-- Modelled from the spec: parse<PositionExpr> of expr.cpp, consuming
operator, numeric value, axis identifier. -/
def parsePosition : List Token → Except ParseError (Ast × List Token)
  | op :: Token.NUMBER v :: Token.IDENT s :: rest =>
    match cmp_of op, axis_of s with
    | some c, some a => .ok (Ast.PositionExpr a c v, rest)
    | _, _ => .error (.selectionError "Could not parse a position selection")
  | _ => .error (.selectionError "Could not parse a position selection")

/-- Modelled from the spec: parse<VelocityExpr> of expr.cpp, consuming
operator, numeric value, axis identifier. -/
def parseVelocity : List Token → Except ParseError (Ast × List Token)
  | op :: Token.NUMBER v :: Token.IDENT s :: rest =>
    match cmp_of op, vaxis_of s with
    | some c, some a => .ok (Ast.VelocityExpr a c v, rest)
    | _, _ => .error (.selectionError "Could not parse a velocity selection")
  | _ => .error (.selectionError "Could not parse a velocity selection")

/-- Modelled from the spec: parse<AllExpr> of expr.cpp consumes the
single token all. -/
def parseAll : List Token → Except ParseError (Ast × List Token)
  | _ :: rest => .ok (Ast.AllExpr, rest)
  | [] => .error (.selectionError "Could not parse an all selection")

/-- Modelled from the spec: parse<NoneExpr> of expr.cpp consumes the
single token none. -/
def parseNone : List Token → Except ParseError (Ast × List Token)
  | _ :: rest => .ok (Ast.NoneExpr, rest)
  | [] => .error (.selectionError "Could not parse a none selection")

/-- dispatch_parsing of parser.cpp (lines 154 to 197), with a fuel
argument bounding the recursion depth of the boolean combinators; the
C++ iterator pair begin, end becomes the list of remaining tokens, and
each call returns the built node together with the unconsumed suffix.
The C++ dereferences begin without comparing it to end first, so the
empty range is undefined behavior. The and and or combinators parse
their second operand first, as the combinator constructors of expr.cpp
do on the reversed RPN stream. -/
def dispatchF : Nat → List Token → Except ParseError (Ast × List Token)
  | 0, _ => .error .outOfFuel
  | _ + 1, [] => .error .undefinedBehavior
  | n + 1, t :: rest =>
    if t.is_boolean_op then
      match t with
      | Token.AND =>
        match dispatchF n rest with
        | .error e => .error e
        | .ok (rhs, r1) =>
          match dispatchF n r1 with
          | .error e => .error e
          | .ok (lhs, r2) => .ok (Ast.AndExpr lhs rhs, r2)
      | Token.OR =>
        match dispatchF n rest with
        | .error e => .error e
        | .ok (rhs, r1) =>
          match dispatchF n r1 with
          | .error e => .error e
          | .ok (lhs, r2) => .ok (Ast.OrExpr lhs rhs, r2)
      | Token.NOT =>
        match dispatchF n rest with
        | .error e => .error e
        | .ok (operand, r1) => .ok (Ast.NotExpr operand, r1)
      | _ => .error (.selectionError "Unknown boolean operator. This is a bug.")
    else if t.is_binary_op then
      match rest with
      | v :: Token.IDENT s :: rest2 =>
        if s = "name" then
          parseName (t :: v :: Token.IDENT s :: rest2)
        else if s = "index" then
          parseIndex (t :: v :: Token.IDENT s :: rest2)
        else if s = "mass" then
          parseMass (t :: v :: Token.IDENT s :: rest2)
        else if s = "x" ∨ s = "y" ∨ s = "z" then
          parsePosition (t :: v :: Token.IDENT s :: rest2)
        else if s = "vx" ∨ s = "vy" ∨ s = "vz" then
          parseVelocity (t :: v :: Token.IDENT s :: rest2)
        else
          .error (.selectionError ("Unknown operation: " ++ s))
      | _ => .error (.selectionError ("Bad binary operation around " ++ t.str))
    else if t.is_ident then
      if t.ident = "all" then
        parseAll (t :: rest)
      else if t.ident = "none" then
        parseNone (t :: rest)
      else
        .error (.selectionError ("Unknown operation: " ++ t.ident))
    else
      .error (.selectionError "Could not parse the selection")

/-- dispatch_parsing on a token range, with enough fuel for any input
(each recursive call consumes at least one token). -/
def dispatch_parsing (tokens : List Token) : Except ParseError (Ast × List Token) :=
  dispatchF (tokens.length + 1) tokens

/-- parse of parser.cpp (lines 199 to 210): clean the stream, reduce it
to RPN, build the root node, and reject any unconsumed suffix. -/
def parse (token_stream : List Token) : Except ParseError Ast :=
  match shunting_yard (clean_token_stream token_stream) with
  | .error e => .error e
  | .ok rpn =>
    match dispatch_parsing rpn with
    | .error e => .error e
    | .ok (ast, rest) =>
      if rest = [] then
        .ok ast
      else
        .error (.selectionError "Could not parse the end of the selection.")

deriving instance DecidableEq for Except

/-- Helper: popping while the incoming precedence is at most the stack
top precedence is exactly takeWhile and dropWhile of that condition. -/
theorem operator_loop_eq (t : Token) : ∀ (ops output : List Token),
    operator_loop ops output t =
      (ops.dropWhile (fun o => t.precedence ≤ o.precedence),
       output ++ ops.takeWhile (fun o => t.precedence ≤ o.precedence))
  | [], output => by simp [operator_loop]
  | top :: rest, output => by
    by_cases h : t.precedence ≤ top.precedence
    · simp [operator_loop, List.takeWhile_cons, List.dropWhile_cons, h,
        operator_loop_eq t rest (output ++ [top])]
    · simp [operator_loop, List.takeWhile_cons, List.dropWhile_cons, h]

/-- Helper: every comparison or boolean operator has precedence at
least 10. -/
theorem is_operator_precedence (t : Token) (h : t.is_operator = true) :
    10 ≤ t.precedence := by
  cases t <;>
    simp_all [Token.is_operator, Token.is_binary_op, Token.is_boolean_op, Token.precedence]

/-- Helper: the source translation of the short-form rewriter agrees
with the sentence of the specification, case by case. -/
theorem clean_go_eq : ∀ s, clean_go s = clean_spec_rewrite s
  | [] => rfl
  | [t] => by
    cases hA : (t.is_ident && have_short_form t.ident) <;>
      simp [clean_go, clean_spec_rewrite, hA]
  | t :: next :: rest => by
    have ih := clean_go_eq (next :: rest)
    have hgo : clean_go (t :: next :: rest) =
        if t.is_ident && have_short_form t.ident then
          (if !next.is_operator then t :: Token.EQ :: clean_go (next :: rest)
           else t :: clean_go (next :: rest))
        else t :: clean_go (next :: rest) := rfl
    rw [hgo, ih]
    cases hA : (t.is_ident && have_short_form t.ident) <;>
      cases hB : next.is_operator <;>
        simp [clean_spec_rewrite, hA, hB]

/-- C1: the claim says that when a close parenthesis is processed and a
function identifier sits immediately below the open parenthesis on the
stack, that identifier is popped to the output before the open
parenthesis is discarded. The code tests is_function on the stack top
before removing the open parenthesis (parser.cpp line 99), so the test
always sees the parenthesis itself and the function identifier stays on
the stack: after processing name ( 1 ) the identifier name is still the
whole operator stack, and with a trailing bare identifier the final RPN
is name bar 1 instead of the claimed bar name 1. -/
theorem rparen_function_not_popped :
    sy_run ⟨[], []⟩ [Token.IDENT "name", Token.LPAREN, Token.NUMBER 1, Token.RPAREN]
      = Except.ok ⟨[Token.IDENT "name"], [Token.NUMBER 1]⟩
    ∧ is_function (Token.IDENT "name") = true
    ∧ shunting_yard [Token.IDENT "name", Token.LPAREN, Token.NUMBER 1,
        Token.RPAREN, Token.IDENT "bar"]
      = Except.ok [Token.IDENT "name", Token.IDENT "bar", Token.NUMBER 1] := by
  decide

/-- C2: parsing name == foo or index == 3 and mass == 1 produces
Or(Name(==,foo), And(Index(==,3), Mass(==,1))): and binds tighter than
or under the precedence-driven popping of the shunting-yard stage. -/
theorem precedence_and_binds_tighter_than_or :
    parse [Token.IDENT "name", Token.EQ, Token.IDENT "foo", Token.OR,
           Token.IDENT "index", Token.EQ, Token.NUMBER 3, Token.AND,
           Token.IDENT "mass", Token.EQ, Token.NUMBER 1]
      = Except.ok (Ast.OrExpr (Ast.NameExpr CmpOp.eq "foo")
          (Ast.AndExpr (Ast.IndexExpr CmpOp.eq 3) (Ast.MassExpr CmpOp.eq 1))) := by
  decide

/-- C3: the short-form rewriter behaves exactly as the claim describes
it: every short-form identifier (name, index, mass) not immediately
followed by an operator token is followed by an inserted EQ before the
original next token, all other tokens are copied unchanged in order, and
a short-form identifier that is the last token of the stream is left
unrewritten. The description is captured by clean_spec_rewrite and the
source translation agrees with it on every input. -/
theorem clean_token_stream_matches_spec :
    ∀ s, clean_token_stream s = clean_spec_rewrite s :=
  fun s => clean_go_eq s

/-- C4 counterexample: positioned at a comparison operator whose token
three positions ahead is an identifier that does not name a known
property, the dispatcher fails with Unknown operation: <ident>, not with
the bad binary operation message the claim asserts for that case. -/
theorem dispatch_unknown_property_not_bad_binary :
    dispatch_parsing [Token.EQ, Token.NUMBER 1, Token.IDENT "blah"]
      = Except.error (ParseError.selectionError "Unknown operation: blah")
    ∧ (("Unknown operation: blah" : String)
        == "Bad binary operation around " ++ Token.str Token.EQ) = false := by
  decide

/-- C4 amended: at a comparison operator token the dispatcher fails with
bad binary operation around <token> if fewer than three tokens remain or
the token three positions ahead is not an identifier token; an
identifier there that names no known property fails with Unknown
operation: <ident>; otherwise the dispatcher hands the whole range to
the property-specific constructor chosen by the identifier (Name, Index,
Mass, Position for x, y, z, Velocity for vx, vy, vz). -/
theorem dispatch_binary_op_cases (t : Token) (hb : t.is_binary_op = true) :
    (dispatch_parsing [t]
      = Except.error (ParseError.selectionError ("Bad binary operation around " ++ t.str)))
    ∧ (∀ v : Token, dispatch_parsing [t, v]
      = Except.error (ParseError.selectionError ("Bad binary operation around " ++ t.str)))
    ∧ (∀ (v u : Token) (ts : List Token), u.is_ident = false →
        dispatch_parsing (t :: v :: u :: ts)
          = Except.error (ParseError.selectionError ("Bad binary operation around " ++ t.str)))
    ∧ (∀ (v : Token) (ts : List Token),
        dispatch_parsing (t :: v :: Token.IDENT "name" :: ts)
          = parseName (t :: v :: Token.IDENT "name" :: ts))
    ∧ (∀ (v : Token) (ts : List Token),
        dispatch_parsing (t :: v :: Token.IDENT "index" :: ts)
          = parseIndex (t :: v :: Token.IDENT "index" :: ts))
    ∧ (∀ (v : Token) (ts : List Token),
        dispatch_parsing (t :: v :: Token.IDENT "mass" :: ts)
          = parseMass (t :: v :: Token.IDENT "mass" :: ts))
    ∧ (∀ (v : Token) (ts : List Token) (s : String), s = "x" ∨ s = "y" ∨ s = "z" →
        dispatch_parsing (t :: v :: Token.IDENT s :: ts)
          = parsePosition (t :: v :: Token.IDENT s :: ts))
    ∧ (∀ (v : Token) (ts : List Token) (s : String), s = "vx" ∨ s = "vy" ∨ s = "vz" →
        dispatch_parsing (t :: v :: Token.IDENT s :: ts)
          = parseVelocity (t :: v :: Token.IDENT s :: ts))
    ∧ (∀ (v : Token) (ts : List Token) (s : String),
        s ≠ "name" → s ≠ "index" → s ≠ "mass" → s ≠ "x" → s ≠ "y" → s ≠ "z" →
        s ≠ "vx" → s ≠ "vy" → s ≠ "vz" →
        dispatch_parsing (t :: v :: Token.IDENT s :: ts)
          = Except.error (ParseError.selectionError ("Unknown operation: " ++ s))) := by
  cases t <;> try (simp [Token.is_binary_op] at hb)
  all_goals {
    refine ⟨rfl, fun v => rfl, ?_, fun v ts => rfl, fun v ts => rfl, fun v ts => rfl,
      ?_, ?_, ?_⟩
    · intro v u ts hu
      cases u <;> first | rfl | (simp [Token.is_ident] at hu)
    · rintro v ts s (rfl | rfl | rfl) <;> rfl
    · rintro v ts s (rfl | rfl | rfl) <;> rfl
    · intro v ts s h1 h2 h3 h4 h5 h6 h7 h8 h9
      simp [dispatch_parsing, dispatchF, Token.is_boolean_op, Token.is_binary_op,
        h1, h2, h3, h4, h5, h6, h7, h8, h9]
  }

/-- C4 witness: the amended dispatch theorem applied at the comparison
operator ==, with a number in the identifier slot. -/
theorem dispatch_binary_op_cases_witness :
    dispatch_parsing [Token.EQ, Token.NUMBER 1, Token.NUMBER 2]
      = Except.error (ParseError.selectionError
          ("Bad binary operation around " ++ Token.str Token.EQ)) :=
  (dispatch_binary_op_cases Token.EQ rfl).2.2.1 (Token.NUMBER 1) (Token.NUMBER 2) [] rfl

/-- C5: after the root AST node is built from the RPN range, parse
raises the SelectionError could not parse the end of the selection
exactly when the cursor has not reached the end of the range; and the
selection name == foo index == 1, two complete expressions with no
boolean connective, is rejected (in fact earlier, by the bad binary
operation error of the dispatcher, because its RPN starts with ==
followed by 1 and a second ==). -/
theorem parse_end_of_selection_check :
    (∀ (stream rpn rest : List Token) (ast : Ast),
        shunting_yard (clean_token_stream stream) = Except.ok rpn →
        dispatch_parsing rpn = Except.ok (ast, rest) →
        (parse stream
            = Except.error (ParseError.selectionError "Could not parse the end of the selection.")
          ↔ rest ≠ []))
    ∧ parse [Token.IDENT "name", Token.EQ, Token.IDENT "foo",
             Token.IDENT "index", Token.EQ, Token.NUMBER 1]
        = Except.error (ParseError.selectionError "Bad binary operation around ==") := by
  constructor
  · intro stream rpn rest ast h1 h2
    simp only [parse, h1, h2]
    by_cases h : rest = [] <;> simp [h]
  · decide

/-- C5 witness: the token stream all all reduces to an RPN whose
dispatch leaves one token unconsumed, and parse rejects it with the
could not parse the end of the selection error. -/
theorem parse_end_of_selection_check_witness :
    (parse [Token.IDENT "all", Token.IDENT "all"]
        = Except.error (ParseError.selectionError "Could not parse the end of the selection."))
      ↔ ([Token.IDENT "all"] : List Token) ≠ [] :=
  parse_end_of_selection_check.1
    [Token.IDENT "all", Token.IDENT "all"]
    [Token.IDENT "all", Token.IDENT "all"]
    [Token.IDENT "all"] Ast.AllExpr (by decide) (by decide)

/-- C6: on the token stream of name == foo ) the close parenthesis
drains the whole operator stack without finding an open parenthesis,
and the code then calls operators.top() on the empty stack (parser.cpp
line 99), which is undefined behavior, not the SelectionError the claim
asserts. -/
theorem rparen_unmatched_undefined :
    shunting_yard [Token.IDENT "name", Token.EQ, Token.IDENT "foo", Token.RPAREN]
      = Except.error ParseError.undefinedBehavior := by
  decide

/-- C7: a comma processed while the operator stack is empty makes the
code call operators.top() on the empty stack (parser.cpp line 70)
before any emptiness check, which is undefined behavior, not the
SelectionError the claim asserts; when the stack is nonempty but holds
no open parenthesis the loop does throw the SelectionError after
exhausting it. -/
theorem comma_empty_stack_undefined :
    shunting_yard [Token.COMMA] = Except.error ParseError.undefinedBehavior
    ∧ shunting_yard [Token.IDENT "name", Token.COMMA]
        = Except.error (ParseError.selectionError
            "Mismatched paretheses or additional comma found") := by
  decide

/-- C8 counterexample: processing the incoming comparison operator ==
with the function identifier name on top of the stack pops that
function identifier into the output, contradicting the claim that no
function identifier on the stack is popped by the operator step. -/
theorem operator_step_pops_function_ident :
    sy_step ⟨[Token.IDENT "name"], []⟩ Token.EQ
      = Except.ok ⟨[Token.EQ], [Token.IDENT "name"]⟩
    ∧ is_function (Token.IDENT "name") = true
    ∧ ([Token.EQ] : List Token).contains (Token.IDENT "name") = false := by
  decide

/-- C8 amended: when an incoming comparison or boolean operator token is
processed, exactly the maximal stack-top prefix of tokens whose
precedence is at least the precedence of the incoming operator is popped
to the output (uniform left associativity); an open parenthesis, having
the lowest precedence, is never popped by this step, but function
identifiers, having the highest precedence, are popped by it. -/
theorem operator_step_pops_by_precedence (st : SYState) (t : Token)
    (h : t.is_operator = true) :
    sy_step st t = Except.ok
        ⟨t :: st.operators.dropWhile (fun o => t.precedence ≤ o.precedence),
         st.output ++ st.operators.takeWhile (fun o => t.precedence ≤ o.precedence)⟩
    ∧ (∀ o ∈ st.operators.takeWhile (fun o => t.precedence ≤ o.precedence),
        t.precedence ≤ o.precedence)
    ∧ Token.LPAREN ∉ st.operators.takeWhile (fun o => t.precedence ≤ o.precedence) := by
  refine ⟨?_, ?_, ?_⟩
  · have e := operator_loop_eq t st.operators st.output
    cases t <;> try (simp [Token.is_operator, Token.is_binary_op, Token.is_boolean_op] at h)
    all_goals simp [sy_step, operator_push, e, Token.is_number, Token.is_variable,
      Token.is_ident, Token.is_operator, Token.is_binary_op, Token.is_boolean_op]
  · intro o ho
    have hdec := List.mem_takeWhile_imp ho
    exact of_decide_eq_true hdec
  · intro hmem
    have hdec := List.mem_takeWhile_imp hmem
    have hle : t.precedence ≤ Token.precedence Token.LPAREN := of_decide_eq_true hdec
    have h10 := is_operator_precedence t h
    have hz : Token.precedence Token.LPAREN = 0 := rfl
    rw [hz] at hle
    omega

/-- C8 witness: the amended operator-step theorem applied to the
incoming operator and over the stack ==, ( pops exactly the comparison
operator and leaves the parenthesis. -/
theorem operator_step_pops_by_precedence_witness :
    sy_step ⟨[Token.EQ, Token.LPAREN], [Token.NUMBER 5]⟩ Token.AND
      = Except.ok ⟨[Token.AND, Token.LPAREN], [Token.NUMBER 5, Token.EQ]⟩ := by
  have h := (operator_step_pops_by_precedence
    ⟨[Token.EQ, Token.LPAREN], [Token.NUMBER 5]⟩ Token.AND rfl).1
  exact h.trans (by decide)

/-- C9: name foo and name == foo parse to the same AST, and likewise
index 3 versus index == 3 and mass 12 versus mass == 12; the common
results are also computed explicitly. -/
theorem short_form_equivalence :
    parse [Token.IDENT "name", Token.IDENT "foo"]
        = parse [Token.IDENT "name", Token.EQ, Token.IDENT "foo"]
    ∧ parse [Token.IDENT "name", Token.IDENT "foo"]
        = Except.ok (Ast.NameExpr CmpOp.eq "foo")
    ∧ parse [Token.IDENT "index", Token.NUMBER 3]
        = parse [Token.IDENT "index", Token.EQ, Token.NUMBER 3]
    ∧ parse [Token.IDENT "index", Token.NUMBER 3]
        = Except.ok (Ast.IndexExpr CmpOp.eq 3)
    ∧ parse [Token.IDENT "mass", Token.NUMBER 12]
        = parse [Token.IDENT "mass", Token.EQ, Token.NUMBER 12]
    ∧ parse [Token.IDENT "mass", Token.NUMBER 12]
        = Except.ok (Ast.MassExpr CmpOp.eq 12) := by
  decide

/-- C10: on the empty token stream the pipeline reaches dispatch_parsing
with an empty range and dereferences the begin cursor without a
begin != end check, so parse of the empty selection is undefined
behavior rather than a SelectionError; dispatch_parsing on an empty
range is undefined behavior at every fuel, so every call chain needs the
nonempty-range precondition for its first token inspection to be
defined. -/
theorem dispatch_empty_range_undefined :
    parse [] = Except.error ParseError.undefinedBehavior
    ∧ dispatch_parsing [] = Except.error ParseError.undefinedBehavior
    ∧ ∀ n : Nat, dispatchF (n + 1) [] = Except.error ParseError.undefinedBehavior :=
  ⟨by decide, by decide, fun _ => rfl⟩

end Chemfiles
